import Mathlib

/-!
Shallow embedding of `src/payment-flows/applepay/utils.js` (the Apple Pay
request-building and shipping-contact-validation utilities), together with
theorems settling the specification claims about that module.

Conventions of the embedding:
* JavaScript strings are Lean `String`s; optional values (`undefined`/`null`,
  Flow `?T`) are `Option`s.
* JavaScript truthiness of a possibly-absent string (`x ? … : …`, `!x`,
  `x || d`) is modelled by `jsTruthy` / `jsOrDefault`: absent and empty
  strings are falsy, every other string is truthy.
* `parseFloat` / `Number.prototype.toFixed(2)` are modelled exactly over
  decimal strings (`JSNumber` below): a finite parsed value is the exact
  rational `(-1)^neg * mantissa * 10^exp10`.  IEEE-754 double rounding of the
  parsed value is not modelled; the two semantics agree on every input whose
  decimal value is not within about `5e-19` of a `toFixed(2)` rounding
  boundary, in particular on all inputs appearing below.
* `Array.prototype.sort` is modelled by a stable comparison sort (`jsSort`):
  ES2019 requires sort stability, and a comparator that never returns a
  positive number never mandates an exchange; any further reordering under an
  inconsistent comparator is implementation-defined by ECMA-262.
-/

/-- `String.prototype.toLowerCase` on the ASCII range (the only range the
reviewed code applies it to: issuer identifiers). -/
def jsToLowerCase (s : String) : String :=
  String.mk (s.toList.map (fun c =>
    if 'A' ≤ c && c ≤ 'Z' then Char.ofNat (c.toNat + 32) else c))

/-- `String.prototype.toUpperCase` on the ASCII range (applied by the reviewed
code to two-letter country codes). -/
def jsToUpperCase (s : String) : String :=
  String.mk (s.toList.map (fun c =>
    if 'a' ≤ c && c ≤ 'z' then Char.ofNat (c.toNat - 32) else c))

/-- JavaScript truthiness of a possibly-absent string: `undefined`, `null`
and `""` are falsy, every other string is truthy. -/
def jsTruthy : Option String → Bool
  | none => false
  | some s => s != ""

/-- JavaScript `x || d` for a possibly-absent string `x` and string default
`d`: the default is taken when `x` is absent or empty. -/
def jsOrDefault (x : Option String) (d : String) : String :=
  match x with
  | none => d
  | some s => if s = "" then d else s

/-- The result of JavaScript `parseFloat`: `NaN`, a signed infinity, or a
finite value `(-1)^neg * mantissa * 10^exp10`, kept in exact decimal form. -/
inductive JSNumber where
  | nan : JSNumber
  | inf (neg : Bool) : JSNumber
  | finite (neg : Bool) (mantissa : Nat) (exp10 : Int) : JSNumber
deriving DecidableEq

/-- Value of a list of decimal digit characters, most significant first. -/
def digitsToNat (l : List Char) : Nat :=
  l.foldl (fun n c => 10 * n + (c.toNat - '0'.toNat)) 0

/-- Model of JavaScript `parseFloat`: skip leading whitespace, read an
optional sign, then the longest prefix that is `Infinity` or a decimal
literal (digits, optional fraction, optional exponent); if no such prefix
exists the result is `NaN`. -/
def jsParseFloat (s : String) : JSNumber :=
  let cs := s.toList.dropWhile (fun c => c == ' ' || c == '\t' || c == '\n' || c == '\r')
  let neg := cs.head? == some '-'
  let cs := if cs.head? == some '-' || cs.head? == some '+' then cs.tail else cs
  if cs.take 8 == "Infinity".toList then JSNumber.inf neg
  else
    let intDigits := cs.takeWhile Char.isDigit
    let afterInt := cs.dropWhile Char.isDigit
    let fracDigits := if afterInt.head? == some '.' then afterInt.tail.takeWhile Char.isDigit else []
    let afterFrac := if afterInt.head? == some '.' then afterInt.tail.dropWhile Char.isDigit else afterInt
    if intDigits.isEmpty && fracDigits.isEmpty then JSNumber.nan
    else
      let expVal : Int :=
        match afterFrac with
        | c :: rest =>
          if c == 'e' || c == 'E' then
            let expNeg := rest.head? == some '-'
            let rest2 := if rest.head? == some '-' || rest.head? == some '+' then rest.tail else rest
            let expDigits := rest2.takeWhile Char.isDigit
            if expDigits.isEmpty then 0
            else if expNeg then -(digitsToNat expDigits : Int) else (digitsToNat expDigits : Int)
          else 0
        | [] => 0
      JSNumber.finite neg (digitsToNat (intDigits ++ fracDigits)) (expVal - fracDigits.length)

/-- Two-digit zero padding of a natural number below 100. -/
def pad2 (k : Nat) : String :=
  if k < 10 then "0" ++ toString k else toString k

/-- Model of `Number.prototype.toFixed(2)` (ECMA-262: choose the integer `n`
with `n / 100` closest to the magnitude, ties towards the larger `n`, and
prefix a minus sign for negative inputs). -/
def jsToFixed2 : JSNumber → String
  | JSNumber.nan => "NaN"
  | JSNumber.inf neg => if neg then "-Infinity" else "Infinity"
  | JSNumber.finite neg mant e =>
    let sign := if neg && mant != 0 then "-" else ""
    let n : Nat :=
      if 0 ≤ e + 2 then mant * 10 ^ (e + 2).toNat
      else (2 * mant + 10 ^ (-(e + 2)).toNat) / (2 * 10 ^ (-(e + 2)).toNat)
    sign ++ toString (n / 100) ++ "." ++ pad2 (n % 100)

/-- `isZeroAmount` from the source: `parseFloat(value).toFixed(2) === '0.00'`. -/
def isZeroAmount (value : String) : Bool :=
  jsToFixed2 (jsParseFloat value) == "0.00"

/-- Every underscore of a string, removed: `issuer.replace(/_/g, '')`. -/
def stripUnderscores (s : String) : String :=
  String.mk (s.toList.filter (fun c => c != '_'))

/-- The `validNetworks` lookup of `getSupportedNetworksFromIssuers`: the
source checks `Object.keys(validNetworks).includes(network)` and then reads
`validNetworks[network]`; the object's literal keys are `discover`, `visa`,
`mastercard`, `amex`, `cb_nationale`, `maestro` and `jcb`. -/
def lookupValidNetwork (network : String) : Option String :=
  if network = "discover" then some "discover"
  else if network = "visa" then some "visa"
  else if network = "mastercard" then some "masterCard"
  else if network = "amex" then some "amex"
  else if network = "cb_nationale" then some "cartesBancaires"
  else if network = "maestro" then some "maestro"
  else if network = "jcb" then some "jcb"
  else none

/-- `getSupportedNetworksFromIssuers` from the source: each issuer is
lower-cased and stripped of underscores, looked up in `validNetworks`, and
pushed onto the result when the lookup succeeds. -/
def getSupportedNetworksFromIssuers (issuers : List String) : List String :=
  issuers.filterMap (fun issuer => lookupValidNetwork (stripUnderscores (jsToLowerCase issuer)))

/-- Modelled from the spec: `ShippingAddress` (declared in the repository's
`types` module, which is not part of the reviewed source): first/last name,
two address lines, city, state/province, postal code, country.  The second
address line may be absent ("even if line2 is empty/undefined"). -/
structure ShippingAddress where
  firstName : String
  lastName : String
  line1 : String
  line2 : Option String
  city : String
  state : String
  postalCode : String
  country : String
deriving DecidableEq

/-- Modelled from the spec: `ApplePayPaymentContact` (declared outside the
reviewed source).  Every field may be absent — the wallet-returned contact
fed to `validateShippingContact` can miss any of them. -/
structure ApplePayPaymentContact where
  givenName : Option String
  familyName : Option String
  addressLines : Option (List (Option String))
  locality : Option String
  administrativeArea : Option String
  postalCode : Option String
  country : Option String
  countryCode : Option String
deriving DecidableEq

/-- `getShippingContactFromAddress` from the source: an absent address maps
to a contact whose every field is present and empty; a present address maps
name, the two address lines, city, state and postal code, and sets both
`country` and `countryCode` from the single `country` field. -/
def getShippingContactFromAddress (shippingAddress : Option ShippingAddress) : ApplePayPaymentContact :=
  match shippingAddress with
  | none =>
    { givenName := some ""
      familyName := some ""
      addressLines := some []
      locality := some ""
      administrativeArea := some ""
      postalCode := some ""
      country := some ""
      countryCode := some "" }
  | some a =>
    { givenName := some a.firstName
      familyName := some a.lastName
      addressLines := some [some a.line1, a.line2]
      locality := some a.city
      administrativeArea := some a.state
      postalCode := some a.postalCode
      country := some a.country
      countryCode := some a.country }

/-- Modelled from the spec: a cart amount (currency code plus decimal
string value), as carried by the order's `cart.amounts` entries and by a
shipping method's `amount`. -/
structure CurrencyAmount where
  currencyCode : String
  currencyValue : String
deriving DecidableEq

/-- Modelled from the spec: `ShippingMethod` (declared outside the reviewed
source): identifier, label, amount, type (e.g. standard/pickup) and a
`selected` marker.  `id` and `amount` are read through optional chaining in
the source, so they are modelled as optional. -/
structure ShippingMethod where
  id : Option String
  label : String
  type : String
  selected : Bool
  amount : Option CurrencyAmount
deriving DecidableEq

/-- One entry of the `shippingMethods` list handed to the wallet. -/
structure ApplePayShippingMethod where
  amount : String
  detail : String
  identifier : String
  label : String
deriving DecidableEq

/-- The comparator passed to `Array.prototype.sort` by
`getApplePayShippingMethods`: the arrow function takes a single parameter,
so the second comparison argument is ignored. -/
def applePayMethodCompare (method : ShippingMethod) (_ : ShippingMethod) : Int :=
  if method.selected then -1 else 0

/-- Insert a later element beneath an already-sorted prefix: it stays in
front of the first element the comparator does not order it after. -/
def jsSortInsert (cmp : α → α → Int) (x : α) : List α → List α
  | [] => [x]
  | y :: ys => if cmp x y ≤ 0 then x :: y :: ys else y :: jsSortInsert cmp x ys

/-- Stable comparison sort modelling `Array.prototype.sort` (ES2019 requires
stability; with an inconsistent comparator any residual reordering is
implementation-defined, and this model performs none that the comparator
does not mandate). -/
def jsSort (cmp : α → α → Int) : List α → List α
  | [] => []
  | x :: xs => jsSortInsert cmp x (jsSort cmp xs)

/-- The per-method mapping of `getApplePayShippingMethods`:
`{amount: method?.amount?.currencyValue || '0.00', detail: method.type,
identifier: method?.id || '', label: method.label}`. -/
def mapApplePayShippingMethod (method : ShippingMethod) : ApplePayShippingMethod :=
  { amount := jsOrDefault (method.amount.map (fun a => a.currencyValue)) "0.00"
    detail := method.type
    identifier := jsOrDefault method.id ""
    label := method.label }

/-- `getApplePayShippingMethods` from the source: copy the list, sort it with
the single-parameter comparator, and map each method to its wallet record. -/
def getApplePayShippingMethods (shippingMethods : List ShippingMethod) : List ApplePayShippingMethod :=
  (jsSort applePayMethodCompare shippingMethods).map mapApplePayShippingMethod

/-- `getMerchantCapabilities` from the source: the fixed three capabilities,
plus `supportsEMV` when the supported networks include `chinaUnionPay`. -/
def getMerchantCapabilities (supportedNetworks : List String) : List String :=
  ["supports3DS", "supportsCredit", "supportsDebit"]
    ++ (if supportedNetworks.contains "chinaUnionPay" then ["supportsEMV"] else [])

/-- Modelled from the spec: order flags carried by the checkout session. -/
structure OrderFlags where
  isShippingAddressRequired : Bool
deriving DecidableEq

/-- Modelled from the spec: the four cart amounts. -/
structure CartAmounts where
  shippingAndHandling : CurrencyAmount
  tax : CurrencyAmount
  subtotal : CurrencyAmount
  total : CurrencyAmount
deriving DecidableEq

/-- Modelled from the spec: the cart of a checkout session.  The shipping
address and the shipping-method list may be absent (the source guards them
with a default parameter and `|| []`). -/
structure Cart where
  amounts : CartAmounts
  shippingAddress : Option ShippingAddress
  shippingMethods : Option (List ShippingMethod)
deriving DecidableEq

/-- Modelled from the spec: the checkout session of a `DetailedOrderInfo`. -/
structure CheckoutSession where
  flags : OrderFlags
  allowedCardIssuers : List String
  cart : Cart
deriving DecidableEq

/-- Modelled from the spec: `DetailedOrderInfo` (declared in the `api`
module outside the reviewed source). -/
structure DetailedOrderInfo where
  checkoutSession : CheckoutSession
deriving DecidableEq

/-- One non-total line item of the payment sheet. -/
structure ApplePayLineItem where
  label : String
  amount : String
deriving DecidableEq

/-- The total line item of the payment sheet. -/
structure ApplePayTotal where
  label : String
  amount : String
  type : String
deriving DecidableEq

/-- The payment request record built by `createApplePayRequest`.  The
`shippingContact` field is `none` when the source assigns the empty object
`\x7b\x7d`. -/
structure ApplePayPaymentRequest where
  countryCode : String
  currencyCode : String
  merchantCapabilities : List String
  supportedNetworks : List String
  requiredBillingContactFields : List String
  requiredShippingContactFields : List String
  shippingContact : Option ApplePayPaymentContact
  shippingMethods : List ApplePayShippingMethod
  lineItems : List ApplePayLineItem
  total : ApplePayTotal
deriving DecidableEq

/-- `createApplePayRequest` from the source. -/
def createApplePayRequest (countryCode : String) (order : DetailedOrderInfo) : ApplePayPaymentRequest :=
  let session := order.checkoutSession
  let shippingValue := session.cart.amounts.shippingAndHandling.currencyValue
  let taxValue := session.cart.amounts.tax.currencyValue
  let subtotalValue := session.cart.amounts.subtotal.currencyValue
  let totalValue := session.cart.amounts.total.currencyValue
  let supportedNetworks := getSupportedNetworksFromIssuers session.allowedCardIssuers
  let shippingContact := getShippingContactFromAddress session.cart.shippingAddress
  let selectedShippingMethod := (session.cart.shippingMethods.getD []).find? (fun m => m.selected)
  let isPickup := selectedShippingMethod.map (fun m => m.type) = some "PICKUP"
  { countryCode := countryCode
    currencyCode := session.cart.amounts.total.currencyCode
    merchantCapabilities := getMerchantCapabilities supportedNetworks
    supportedNetworks := supportedNetworks
    requiredBillingContactFields := ["postalAddress", "name", "phone"]
    requiredShippingContactFields :=
      if session.flags.isShippingAddressRequired then
        ["postalAddress", "name", "phone", "email"]
      else
        ["name", "phone", "email"]
    shippingContact := if jsTruthy shippingContact.givenName then some shippingContact else none
    shippingMethods := getApplePayShippingMethods (session.cart.shippingMethods.getD [])
    lineItems :=
      (if subtotalValue ≠ "" ∧ isZeroAmount subtotalValue = false then
        [{ label := "Subtotal", amount := subtotalValue }] else [])
      ++ (if taxValue ≠ "" ∧ isZeroAmount taxValue = false then
        [{ label := "Sales Tax", amount := taxValue }] else [])
      ++ (if shippingValue ≠ "" ∧ (isZeroAmount shippingValue = false ∨ isPickup) then
        [{ label := "Shipping", amount := shippingValue }] else [])
    total := { label := "Total", amount := totalValue, type := "final" } }

/-- Modelled from the spec: the fixed country-code table (the `COUNTRY`
constant imported from the external sdk-constants package, not part of the
reviewed source).  Only membership and the `US` entry are observable to the
reviewed code; the table maps each ISO 3166-1 alpha-2 code to itself. -/
def countryCodes : List String :=
  ["AD", "AE", "AR", "AT", "AU", "BE", "BG", "BR", "CA", "CH", "CL", "CN",
   "CO", "CY", "CZ", "DE", "DK", "EE", "ES", "FI", "FR", "GB", "GR", "HK",
   "HU", "ID", "IE", "IL", "IN", "IT", "JP", "KR", "LT", "LU", "LV", "MT",
   "MX", "MY", "NL", "NO", "NZ", "PE", "PH", "PL", "PT", "RO", "SE", "SG",
   "SI", "SK", "TH", "TR", "TW", "US", "VN", "ZA"]

/-- Lookup in the `COUNTRY` table: `COUNTRY[key]` is the code itself for a
known key and `undefined` otherwise. -/
def COUNTRY (code : String) : Option String :=
  if countryCodes.contains code then some code else none

/-- One entry of the error list returned by `validateShippingContact`. -/
structure ApplePayError where
  code : String
  contactField : String
  message : String
deriving DecidableEq

/-- The normalized address record returned by `validateShippingContact`
(`city`, `state`, resolved `country_code` or null, `postal_code`). -/
structure Shipping_Address where
  city : Option String
  state : Option String
  country_code : Option String
  postal_code : Option String
deriving DecidableEq

/-- The result record of `validateShippingContact`. -/
structure ShippingContactValidation where
  errors : List ApplePayError
  shipping_address : Shipping_Address
deriving DecidableEq

/-- The `country_code` local of `validateShippingContact`:
`contact?.countryCode ? COUNTRY[contact.countryCode.toUpperCase()] : null`. -/
def resolvedCountry (contact : Option ApplePayPaymentContact) : Option String :=
  if jsTruthy (contact.bind (fun c => c.countryCode)) then
    COUNTRY (jsToUpperCase ((contact.bind (fun c => c.countryCode)).getD ""))
  else none

/-- `validateShippingContact` from the source: the four checks append their
errors in order (locality, countryCode, administrativeArea, postalCode), the
administrativeArea check firing only when the resolved country is `US`, and
the normalized address is always returned. -/
def validateShippingContact (contact : Option ApplePayPaymentContact) : ShippingContactValidation :=
  { errors :=
      (if jsTruthy (contact.bind (fun c => c.locality)) then []
        else [{ code := "shippingContactInvalid", contactField := "locality", message := "City is invalid" }])
      ++ (if (resolvedCountry contact).isSome then []
        else [{ code := "shippingContactInvalid", contactField := "countryCode", message := "Country code is invalid" }])
      ++ (if resolvedCountry contact = some "US" ∧ jsTruthy (contact.bind (fun c => c.administrativeArea)) = false then
        [{ code := "shippingContactInvalid", contactField := "administrativeArea", message := "State is invalid" }] else [])
      ++ (if jsTruthy (contact.bind (fun c => c.postalCode)) then []
        else [{ code := "shippingContactInvalid", contactField := "postalCode", message := "Postal code is invalid" }])
    shipping_address :=
      { city := contact.bind (fun c => c.locality)
        state := contact.bind (fun c => c.administrativeArea)
        country_code := resolvedCountry contact
        postal_code := contact.bind (fun c => c.postalCode) } }

/-- A JavaScript value, as far as the `isJSON` round trip can observe it:
`undefined`, a function, `null`, a boolean, a (integral) number, a string, a
BigInt, an array or a plain object.  Cyclic structures are not representable
in an inductive type, so the BigInt case is the modelled way
`JSON.stringify` can throw. -/
inductive JSValue where
  | undef : JSValue
  | fn : JSValue
  | nullVal : JSValue
  | boolVal (b : Bool) : JSValue
  | numVal (n : Int) : JSValue
  | strVal (s : String) : JSValue
  | bigIntVal (n : Int) : JSValue
  | arrVal (elems : List JSValue) : JSValue
  | objVal (fields : List (String × JSValue)) : JSValue

/-- JSON string quoting (escaping quotes and backslashes). -/
def jsonQuote (s : String) : String :=
  "\"" ++ String.mk (s.toList.foldr
    (fun c acc => if c == '"' || c == '\\' then '\\' :: c :: acc else c :: acc) []) ++ "\""

/-- Comma-join a list of strings. -/
def joinComma : List String → String
  | [] => ""
  | [s] => s
  | s :: rest => s ++ "," ++ joinComma rest

mutual
/-- Model of `JSON.stringify`: `Except.error` is a thrown `TypeError`
(serializing a BigInt), `Except.ok none` is the `undefined` result (a
top-level `undefined` or function), `Except.ok (some s)` is the JSON text. -/
def jsonStringifyValue : JSValue → Except String (Option String)
  | JSValue.undef => Except.ok none
  | JSValue.fn => Except.ok none
  | JSValue.nullVal => Except.ok (some "null")
  | JSValue.boolVal b => Except.ok (some (if b then "true" else "false"))
  | JSValue.numVal n => Except.ok (some (toString n))
  | JSValue.strVal s => Except.ok (some (jsonQuote s))
  | JSValue.bigIntVal _ => Except.error "TypeError: Do not know how to serialize a BigInt"
  | JSValue.arrVal elems =>
    match jsonStringifyElems elems with
    | Except.error e => Except.error e
    | Except.ok parts => Except.ok (some ("[" ++ joinComma parts ++ "]"))
  | JSValue.objVal fields =>
    match jsonStringifyFields fields with
    | Except.error e => Except.error e
    | Except.ok parts => Except.ok (some ("\x7b" ++ joinComma parts ++ "\x7d"))

/-- Array elements: an unserializable element becomes `null`. -/
def jsonStringifyElems : List JSValue → Except String (List String)
  | [] => Except.ok []
  | v :: rest =>
    match jsonStringifyValue v with
    | Except.error e => Except.error e
    | Except.ok s =>
      match jsonStringifyElems rest with
      | Except.error e => Except.error e
      | Except.ok parts => Except.ok ((s.getD "null") :: parts)

/-- Object fields: an unserializable value drops its key. -/
def jsonStringifyFields : List (String × JSValue) → Except String (List String)
  | [] => Except.ok []
  | (k, v) :: rest =>
    match jsonStringifyValue v with
    | Except.error e => Except.error e
    | Except.ok s =>
      match jsonStringifyFields rest with
      | Except.error e => Except.error e
      | Except.ok parts =>
        Except.ok (match s with
          | none => parts
          | some sv => (jsonQuote k ++ ":" ++ sv) :: parts)
end

/-- The `JSON.parse(JSON.stringify(json))` round trip inside `isJSON`'s
`try` block: a `stringify` `TypeError` propagates; when `stringify` yields
`undefined`, `JSON.parse` receives the string coercion `"undefined"` and
throws a `SyntaxError`; every string `JSON.stringify` actually produced is
valid JSON, so `JSON.parse` succeeds on it. -/
def jsJSONRoundTrip (json : JSValue) : Except String Unit :=
  match jsonStringifyValue json with
  | Except.error e => Except.error e
  | Except.ok none => Except.error "SyntaxError: Unexpected token u in JSON at position 0"
  | Except.ok (some _) => Except.ok ()

/-- `isJSON` from the source: `true` when the round trip completes, `false`
when it throws (the `catch` branch). -/
def isJSON (json : JSValue) : Bool :=
  match jsJSONRoundTrip json with
  | Except.ok _ => true
  | Except.error _ => false

/-- The wallet-returned contact with every field absent (the empty object). -/
def emptyApplePayContact : ApplePayPaymentContact :=
  { givenName := none, familyName := none, addressLines := none, locality := none,
    administrativeArea := none, postalCode := none, country := none, countryCode := none }

/-- A sample order whose subtotal and shipping are "0.00", tax "5.00", with
no shipping methods. -/
def taxOnlyOrder : DetailedOrderInfo :=
  { checkoutSession :=
    { flags := { isShippingAddressRequired := false }
      allowedCardIssuers := []
      cart :=
      { amounts :=
        { shippingAndHandling := { currencyCode := "USD", currencyValue := "0.00" }
          tax := { currencyCode := "USD", currencyValue := "5.00" }
          subtotal := { currencyCode := "USD", currencyValue := "0.00" }
          total := { currencyCode := "USD", currencyValue := "5.00" } }
        shippingAddress := none
        shippingMethods := none } } }

/-- A sample order with all amounts "0.00" and a selected PICKUP shipping
method. -/
def pickupOrder : DetailedOrderInfo :=
  { checkoutSession :=
    { flags := { isShippingAddressRequired := false }
      allowedCardIssuers := []
      cart :=
      { amounts :=
        { shippingAndHandling := { currencyCode := "USD", currencyValue := "0.00" }
          tax := { currencyCode := "USD", currencyValue := "0.00" }
          subtotal := { currencyCode := "USD", currencyValue := "0.00" }
          total := { currencyCode := "USD", currencyValue := "0.00" } }
        shippingAddress := none
        shippingMethods := some
          [{ id := some "pickup1", label := "Store Pickup", type := "PICKUP",
             selected := true, amount := some { currencyCode := "USD", currencyValue := "0.00" } }] } } }

/-- The round-trip contact of claim C5 with a lowercase country code. -/
def lowercaseCountryContact : ApplePayPaymentContact :=
  { emptyApplePayContact with
      locality := some "Paris"
      administrativeArea := some "IDF"
      postalCode := some "75001"
      countryCode := some "fr" }


/-- A comparator that never returns a positive value never displaces the
element being inserted. -/
theorem jsSortInsert_of_nonpos {α : Type} (cmp : α → α → Int)
    (h : ∀ a b, cmp a b ≤ 0) (x : α) (l : List α) :
    jsSortInsert cmp x l = x :: l := by
  cases l with
  | nil => rfl
  | cons y ys => simp [jsSortInsert, h x y]

/-- A stable sort under a comparator that never returns a positive value is
the identity. -/
theorem jsSort_of_nonpos {α : Type} (cmp : α → α → Int)
    (h : ∀ a b, cmp a b ≤ 0) : ∀ l : List α, jsSort cmp l = l := by
  intro l
  induction l with
  | nil => rfl
  | cons x xs ih => rw [jsSort, ih, jsSortInsert_of_nonpos cmp h]

/-- The source comparator returns `-1` or `0`, never a positive value. -/
theorem applePayMethodCompare_nonpos (a b : ShippingMethod) :
    applePayMethodCompare a b ≤ 0 := by
  unfold applePayMethodCompare
  split <;> decide

/-- Every value of the `validNetworks` table. -/
theorem lookupValidNetwork_mem (s v : String) (h : lookupValidNetwork s = some v) :
    v ∈ ["discover", "visa", "masterCard", "amex", "cartesBancaires", "maestro", "jcb"] := by
  unfold lookupValidNetwork at h
  split_ifs at h <;> simp_all

/-- Stripping underscores leaves no underscore behind. -/
theorem stripUnderscores_no_underscore (s : String) :
    '_' ∉ (stripUnderscores s).toList := by
  intro hmem
  have := List.of_mem_filter (l := s.toList) hmem
  simp at this

/-- The `cb_nationale` table key still contains an underscore, while the
looked-up string never does, so the `cartesBancaires` value is unreachable. -/
theorem lookupValidNetwork_stripped_ne_cartes (s : String) :
    lookupValidNetwork (stripUnderscores s) ≠ some "cartesBancaires" := by
  have hne : stripUnderscores s ≠ "cb_nationale" := by
    intro he
    apply stripUnderscores_no_underscore s
    rw [he]
    decide
  unfold lookupValidNetwork
  split_ifs <;> simp_all

/-- No issuer list can produce the `cartesBancaires` network. -/
theorem getSupportedNetworksFromIssuers_not_cartes (issuers : List String) :
    (getSupportedNetworksFromIssuers issuers).contains "cartesBancaires" = false := by
  induction issuers with
  | nil => rfl
  | cons i rest ih =>
    unfold getSupportedNetworksFromIssuers at ih ⊢
    rw [List.filterMap_cons]
    cases h : lookupValidNetwork (stripUnderscores (jsToLowerCase i)) with
    | none => exact ih
    | some v =>
      have hv : v ≠ "cartesBancaires" := by
        intro he
        exact lookupValidNetwork_stripped_ne_cartes (jsToLowerCase i) (he ▸ h)
      have h1 : ("cartesBancaires" == v) = false := by
        rw [beq_eq_false_iff_ne]
        exact fun he => hv he.symm
      rw [List.contains_cons, h1, ih]
      decide

/-- No issuer list can produce the `chinaUnionPay` network: it is not among
the seven table values. -/
theorem getSupportedNetworksFromIssuers_not_chinaUnionPay (issuers : List String) :
    (getSupportedNetworksFromIssuers issuers).contains "chinaUnionPay" = false := by
  induction issuers with
  | nil => rfl
  | cons i rest ih =>
    unfold getSupportedNetworksFromIssuers at ih ⊢
    rw [List.filterMap_cons]
    cases h : lookupValidNetwork (stripUnderscores (jsToLowerCase i)) with
    | none => exact ih
    | some v =>
      have hv : v ≠ "chinaUnionPay" := by
        have := lookupValidNetwork_mem _ _ h
        intro he
        rw [he] at this
        simp at this
      have h1 : ("chinaUnionPay" == v) = false := by
        rw [beq_eq_false_iff_ne]
        exact fun he => hv he.symm
      rw [List.contains_cons, h1, ih]
      decide

/-- A successful `COUNTRY` lookup returns its key. -/
theorem COUNTRY_eq_some (code v : String) (h : COUNTRY code = some v) : v = code := by
  unfold COUNTRY at h
  split_ifs at h
  exact (Option.some.inj h).symm

/-- C1: normalization lower-cases each issuer and strips its underscores, but
the table key `cb_nationale` keeps its underscore, so no issuer — in
particular `CB_NATIONALE`, which normalizes to `cbnationale` — can ever map
to `cartesBancaires`; all other table entries behave as the claim states
(`["VISA","Master_Card","unknown"]` yields `["visa","masterCard"]`). -/
theorem getSupportedNetworksFromIssuers_cb_nationale_unreachable :
    getSupportedNetworksFromIssuers ["CB_NATIONALE"] = []
    ∧ getSupportedNetworksFromIssuers ["VISA", "Master_Card", "unknown"] = ["visa", "masterCard"]
    ∧ ∀ issuers : List String,
        (getSupportedNetworksFromIssuers issuers).contains "cartesBancaires" = false :=
  ⟨by decide, by decide, getSupportedNetworksFromIssuers_not_cartes⟩

/-- C2 (counterexample to the claim as stated): `isZeroAmount "0.001"` is
`true`, not `false`: `parseFloat("0.001").toFixed(2)` is `"0.00"`. -/
theorem isZeroAmount_claim_counterexample : isZeroAmount "0.001" = true := by decide

/-- C2 (amended): `isZeroAmount` is the two-decimal formatting of the parsed
value compared with `"0.00"`; `NaN` (non-numeric input) is never zero;
`"0"` and `"0.00"` are zero, `"0.001"` is zero as well (it formats to
`"0.00"`), and `"abc"` is not. -/
theorem isZeroAmount_spec :
    (∀ s : String, jsParseFloat s = JSNumber.nan → isZeroAmount s = false)
    ∧ (∀ s : String, isZeroAmount s = (jsToFixed2 (jsParseFloat s) == "0.00"))
    ∧ isZeroAmount "0" = true ∧ isZeroAmount "0.00" = true
    ∧ isZeroAmount "0.001" = true ∧ isZeroAmount "abc" = false := by
  refine ⟨?_, fun s => rfl, by decide, by decide, by decide, by decide⟩
  intro s h
  unfold isZeroAmount
  rw [h]
  rfl

/-- C2 witness: a concrete non-numeric input discharging the NaN clause. -/
theorem isZeroAmount_spec_witness :
    jsParseFloat "hello" = JSNumber.nan ∧ isZeroAmount "hello" = false :=
  ⟨by decide, isZeroAmount_spec.1 "hello" (by decide)⟩

/-- C3: `validateShippingContact` emits one error per failing check in the
fixed order locality, countryCode, administrativeArea, postalCode, the
administrativeArea check firing only when the country resolved to `US`;
every error carries the `shippingContactInvalid` code; the normalized
address is returned in every case; the empty contact yields exactly the
three errors on locality, countryCode and postalCode, and a `US` contact
missing only its state yields exactly one administrativeArea error. -/
theorem validateShippingContact_checks :
    (∀ contact : Option ApplePayPaymentContact,
      (validateShippingContact contact).errors.map (fun e => e.contactField) =
        (if jsTruthy (contact.bind (fun c => c.locality)) then [] else ["locality"])
        ++ (if (resolvedCountry contact).isSome then [] else ["countryCode"])
        ++ (if resolvedCountry contact = some "US"
              ∧ jsTruthy (contact.bind (fun c => c.administrativeArea)) = false then
            ["administrativeArea"] else [])
        ++ (if jsTruthy (contact.bind (fun c => c.postalCode)) then [] else ["postalCode"])
      ∧ (validateShippingContact contact).errors.all (fun e => e.code == "shippingContactInvalid") = true
      ∧ (validateShippingContact contact).shipping_address =
          { city := contact.bind (fun c => c.locality),
            state := contact.bind (fun c => c.administrativeArea),
            country_code := resolvedCountry contact,
            postal_code := contact.bind (fun c => c.postalCode) })
    ∧ (validateShippingContact (some emptyApplePayContact)).errors.map (fun e => e.contactField) =
        ["locality", "countryCode", "postalCode"]
    ∧ (validateShippingContact none).errors.map (fun e => e.contactField) =
        ["locality", "countryCode", "postalCode"]
    ∧ (validateShippingContact (some
        { emptyApplePayContact with
            locality := some "X"
            countryCode := some "US"
            postalCode := some "10001" })).errors.map
          (fun e => e.contactField) = ["administrativeArea"] := by
  refine ⟨fun contact => ⟨?_, ?_, rfl⟩, by decide, by decide, by decide⟩
  · simp only [validateShippingContact, List.map_append]
    split_ifs <;> rfl
  · simp only [validateShippingContact]
    split_ifs <;> rfl

/-- C4: the line items of the built request are exactly the Subtotal item
(present and non-zero subtotal), the Sales Tax item (present and non-zero
tax) and the Shipping item (present shipping value that is non-zero or with
a selected PICKUP method), in that order, and the total line item is always
`Total`/`final`; the two sample orders exhibit the zero-tax-only and the
free-pickup cases. -/
theorem createApplePayRequest_lineItems :
    (∀ (cc : String) (order : DetailedOrderInfo),
      (createApplePayRequest cc order).lineItems =
        (if order.checkoutSession.cart.amounts.subtotal.currencyValue ≠ ""
            ∧ isZeroAmount order.checkoutSession.cart.amounts.subtotal.currencyValue = false then
          [{ label := "Subtotal", amount := order.checkoutSession.cart.amounts.subtotal.currencyValue }] else [])
        ++ (if order.checkoutSession.cart.amounts.tax.currencyValue ≠ ""
            ∧ isZeroAmount order.checkoutSession.cart.amounts.tax.currencyValue = false then
          [{ label := "Sales Tax", amount := order.checkoutSession.cart.amounts.tax.currencyValue }] else [])
        ++ (if order.checkoutSession.cart.amounts.shippingAndHandling.currencyValue ≠ ""
            ∧ (isZeroAmount order.checkoutSession.cart.amounts.shippingAndHandling.currencyValue = false
              ∨ ((order.checkoutSession.cart.shippingMethods.getD []).find?
                  (fun m => m.selected)).map (fun m => m.type) = some "PICKUP") then
          [{ label := "Shipping", amount := order.checkoutSession.cart.amounts.shippingAndHandling.currencyValue }] else [])
      ∧ (createApplePayRequest cc order).total =
          { label := "Total", amount := order.checkoutSession.cart.amounts.total.currencyValue, type := "final" })
    ∧ (createApplePayRequest "US" taxOnlyOrder).lineItems = [{ label := "Sales Tax", amount := "5.00" }]
    ∧ (createApplePayRequest "US" pickupOrder).lineItems = [{ label := "Shipping", amount := "0.00" }] :=
  ⟨fun cc order => ⟨rfl, rfl⟩, by decide, by decide⟩

/-- C5 (counterexample to the claim as stated): the contact with lowercase
country code `"fr"` satisfies the claim's hypotheses (all four fields
present and non-empty, resolving to France, not the US) and yields no
errors, but the normalized country code is the uppercased `"FR"`, not the
input `"fr"`. -/
theorem validateShippingContact_roundtrip_counterexample :
    (validateShippingContact (some lowercaseCountryContact)).errors = []
    ∧ (validateShippingContact (some lowercaseCountryContact)).shipping_address.country_code = some "FR"
    ∧ ((validateShippingContact (some lowercaseCountryContact)).shipping_address.country_code
        == lowercaseCountryContact.countryCode) = false := by decide

/-- C5 (amended): for a contact whose locality, administrative area, postal
code and country code are all present and non-empty and whose country code
resolves to a non-US country, `validateShippingContact` returns no errors
and a normalized address whose city, state and postal code equal the inputs
and whose country code is the uppercase of the input country code. -/
theorem validateShippingContact_roundtrip_amended :
    ∀ (g f co : Option String) (al : Option (List (Option String))) (loc adm post cc : String),
      loc ≠ "" → adm ≠ "" → post ≠ "" → cc ≠ "" →
      ∀ u : String, COUNTRY (jsToUpperCase cc) = some u → u ≠ "US" →
      validateShippingContact (some
          { givenName := g
            familyName := f
            addressLines := al
            locality := some loc
            administrativeArea := some adm
            postalCode := some post
            country := co
            countryCode := some cc }) =
        { errors := []
          shipping_address :=
            { city := some loc
              state := some adm
              country_code := some (jsToUpperCase cc)
              postal_code := some post } } := by
  intro g f co al loc adm post cc hloc hadm hpost hcc u hu hus
  have hcu : u = jsToUpperCase cc := COUNTRY_eq_some _ _ hu
  subst hcu
  simp [validateShippingContact, resolvedCountry, jsTruthy, hloc, hadm, hpost, hcc, hu, hus]

/-- C5 witness: a concrete all-uppercase German contact. -/
theorem validateShippingContact_roundtrip_amended_witness :
    COUNTRY (jsToUpperCase "DE") = some "DE"
    ∧ validateShippingContact (some
        { givenName := none
          familyName := none
          addressLines := none
          locality := some "Berlin"
          administrativeArea := some "BE"
          postalCode := some "10115"
          country := none
          countryCode := some "DE" }) =
      { errors := []
        shipping_address :=
          { city := some "Berlin"
            state := some "BE"
            country_code := some "DE"
            postal_code := some "10115" } } :=
  ⟨by decide,
    validateShippingContact_roundtrip_amended none none none none "Berlin" "BE" "10115" "DE"
      (by decide) (by decide) (by decide) (by decide) "DE" (by decide) (by decide)⟩

/-- C6: the built request always requires postalAddress, name and phone for
billing; requires postalAddress, name, phone and email for shipping exactly
when the shipping-address-required flag is set (name, phone, email
otherwise); and pre-fills the mapped shipping contact exactly when its given
name is non-empty, the empty record otherwise. -/
theorem createApplePayRequest_contactFields :
    ∀ (cc : String) (order : DetailedOrderInfo),
      (createApplePayRequest cc order).requiredBillingContactFields = ["postalAddress", "name", "phone"]
      ∧ (createApplePayRequest cc order).requiredShippingContactFields =
          (if order.checkoutSession.flags.isShippingAddressRequired then
            ["postalAddress", "name", "phone", "email"] else ["name", "phone", "email"])
      ∧ (createApplePayRequest cc order).shippingContact =
          (if jsTruthy (getShippingContactFromAddress order.checkoutSession.cart.shippingAddress).givenName then
            some (getShippingContactFromAddress order.checkoutSession.cart.shippingAddress) else none) :=
  fun cc order => ⟨rfl, rfl, rfl⟩

/-- C7: `getApplePayShippingMethods` maps the sorted copy of the input list;
the stable ES2019 sort under the source's single-parameter comparator (−1
for a selected method, 0 otherwise) mandates no exchange, so the output is
one record per input method in input order — a permutation of the mapped
input, nothing dropped or duplicated — each mapped to the currency value or
`"0.00"`, the method type, the id or `""`, and the label. -/
theorem getApplePayShippingMethods_spec :
    ∀ ms : List ShippingMethod,
      getApplePayShippingMethods ms = (jsSort applePayMethodCompare ms).map mapApplePayShippingMethod
      ∧ (getApplePayShippingMethods ms).Perm (ms.map mapApplePayShippingMethod)
      ∧ (getApplePayShippingMethods ms).length = ms.length
      ∧ getApplePayShippingMethods ms = ms.map (fun m =>
          { amount := jsOrDefault (m.amount.map (fun a => a.currencyValue)) "0.00"
            detail := m.type
            identifier := jsOrDefault m.id ""
            label := m.label }) := by
  intro ms
  have h4 : getApplePayShippingMethods ms = ms.map mapApplePayShippingMethod := by
    unfold getApplePayShippingMethods
    rw [jsSort_of_nonpos _ applePayMethodCompare_nonpos ms]
  refine ⟨rfl, ?_, ?_, ?_⟩
  · rw [h4]
  · rw [h4, List.length_map]
  · rw [h4]
    rfl

/-- C8: an absent address maps to the contact whose every field is present
and empty (empty address-lines list); a present address maps to the
two-element address-line list `[line1, line2]` (even when `line2` is empty
or absent), the copied name, city, state and postal code, and both country
fields set from the single country field. -/
theorem getShippingContactFromAddress_spec :
    getShippingContactFromAddress none =
      { givenName := some "", familyName := some "", addressLines := some [], locality := some "",
        administrativeArea := some "", postalCode := some "", country := some "", countryCode := some "" }
    ∧ (∀ a : ShippingAddress,
        getShippingContactFromAddress (some a) =
          { givenName := some a.firstName, familyName := some a.lastName,
            addressLines := some [some a.line1, a.line2], locality := some a.city,
            administrativeArea := some a.state, postalCode := some a.postalCode,
            country := some a.country, countryCode := some a.country })
    ∧ (∀ a : ShippingAddress,
        ((getShippingContactFromAddress (some a)).addressLines.getD []).length = 2) :=
  ⟨rfl, fun a => rfl, fun a => rfl⟩

/-- C9: no embedded function of the module escapes with an error: the JSON
round trip inside `isJSON` turns every thrown error into `false` rather than
propagating it; missing optional inputs degrade to the documented defaults
(all-empty contact, `"0.00"` amount, `""` identifier); the issuer mapping
only ever drops entries; and the validator accumulates at most its four
field errors. -/
theorem applepay_utils_safety :
    (∀ (v : JSValue) (e : String), jsJSONRoundTrip v = Except.error e → isJSON v = false)
    ∧ (∀ (label ty : String) (sel : Bool),
        mapApplePayShippingMethod { id := none, label := label, type := ty, selected := sel, amount := none } =
          { amount := "0.00", detail := ty, identifier := "", label := label })
    ∧ (∀ issuers : List String, (getSupportedNetworksFromIssuers issuers).length ≤ issuers.length)
    ∧ (∀ contact : Option ApplePayPaymentContact, (validateShippingContact contact).errors.length ≤ 4)
    ∧ getShippingContactFromAddress none =
        { givenName := some "", familyName := some "", addressLines := some [], locality := some "",
          administrativeArea := some "", postalCode := some "", country := some "", countryCode := some "" } := by
  refine ⟨?_, fun label ty sel => rfl, fun issuers => List.length_filterMap_le _ _, ?_, rfl⟩
  · intro v e h
    unfold isJSON
    rw [h]
  · intro contact
    simp only [validateShippingContact, List.length_append]
    split_ifs <;> simp

/-- C9 witness: a BigInt value makes the round trip throw and `isJSON`
return `false`. -/
theorem applepay_utils_safety_witness :
    jsJSONRoundTrip (JSValue.bigIntVal 1) =
      Except.error "TypeError: Do not know how to serialize a BigInt"
    ∧ isJSON (JSValue.bigIntVal 1) = false :=
  ⟨rfl, applepay_utils_safety.1 (JSValue.bigIntVal 1) _ rfl⟩

/-- C10: the supported-network table can never produce `chinaUnionPay`, so
the EMV branch of `getMerchantCapabilities` is unreachable from
`createApplePayRequest` and the built request's merchant capabilities are
always exactly `supports3DS`, `supportsCredit`, `supportsDebit`. -/
theorem createApplePayRequest_merchantCapabilities :
    (∀ issuers : List String,
      (getSupportedNetworksFromIssuers issuers).contains "chinaUnionPay" = false)
    ∧ ∀ (cc : String) (order : DetailedOrderInfo),
        (createApplePayRequest cc order).merchantCapabilities =
          ["supports3DS", "supportsCredit", "supportsDebit"] := by
  refine ⟨getSupportedNetworksFromIssuers_not_chinaUnionPay, fun cc order => ?_⟩
  show getMerchantCapabilities (getSupportedNetworksFromIssuers order.checkoutSession.allowedCardIssuers) = _
  unfold getMerchantCapabilities
  rw [getSupportedNetworksFromIssuers_not_chinaUnionPay]
  simp
